import Mathlib

/-!
Shallow embedding of the draft-state reconciliation and synchronization
subsystem of `src/draft_app.py` (a Streamlit fantasy-football draft board).

Session state (`st.session_state`) is modelled as an explicit `SessionState`
record.  Remote HTTP calls are modelled by passing their outcomes
(`HttpResult`) as explicit arguments; Python dicts keyed by player name are
modelled as association lists `List (String × PickInfo)` with Python's
overwrite-on-assignment semantics (`dictInsert`).  Python sets of names are
`Finset String`.  Wall-clock time (`time.time()`) is a rational number.
-/

namespace DraftApp

/-- Connection type stored in `st.session_state.connection_type`
(`"league"` or `"mock"`; `None` is modelled by `Option`). -/
inductive ConnType where
  | league
  | mock
deriving DecidableEq, Repr

/-- The per-player record built by `get_sleeper_draft_picks_by_id`
(`pick_no`, `round`, `picked_by` from the pick, `team`, `position`
from the player directory). -/
structure PickInfo where
  pick_no : Nat
  round : Nat
  picked_by : String
  team : String
  position : String
deriving DecidableEq, Repr

/-- An entry of the `/players/nfl` directory. -/
structure PlayerInfo where
  first_name : String
  last_name : String
  team : String
  position : String
deriving DecidableEq, Repr

/-- A raw pick from `/draft/(draft_id)/picks`; `player_id` may be absent. -/
structure RawPick where
  player_id : Option String
  pick_no : Nat
  round : Nat
  picked_by : String
deriving DecidableEq, Repr

/-- League metadata from `/league/(league_id)` (fields the code reads). -/
structure LeagueInfo where
  lname : String
  season : String
  draft_id : Option String
deriving DecidableEq, Repr

/-- Draft metadata from `/draft/(draft_id)` (fields the code reads). -/
structure DraftInfo where
  dtype : String
  dstatus : String
  teams : Nat
deriving DecidableEq, Repr

/-- Outcome of one HTTP request: a 200 response with a payload, a
non-200 response, or a raised exception inside `requests.get`. -/
inductive HttpResult (α : Type) where
  | ok (a : α)
  | httpError
  | exn
deriving DecidableEq, Repr

/-- Python truthiness of an optional string (`None` and `""` are falsy). -/
def truthy : Option String → Bool
  | none => false
  | some x => x != ""

/-- The key set of a name-keyed dict. -/
def keys (l : List (String × PickInfo)) : Finset String :=
  (l.map Prod.fst).toFinset

/-- `len` of a name-keyed dict (number of distinct keys). -/
def dictLen (l : List (String × PickInfo)) : Nat :=
  (keys l).card

/-- Python dict assignment `d[k] = v`: overwrite an existing key, else append. -/
def dictInsert (l : List (String × PickInfo)) (k : String) (v : PickInfo) :
    List (String × PickInfo) :=
  if l.any (fun kv => kv.1 == k) then
    l.map (fun kv => if kv.1 == k then (k, v) else kv)
  else
    l ++ [(k, v)]

/-- Python's `str.strip()`: drop whitespace from both ends
(structurally recursive, unlike `String.trim`). -/
def strip (s : String) : String :=
  ⟨((s.data.dropWhile Char.isWhitespace).reverse.dropWhile Char.isWhitespace).reverse⟩

/-- Lookup `players_data[player_id]` in the player directory. -/
def lookupPlayer (players : List (String × PlayerInfo)) (pid : String) :
    Option PlayerInfo :=
  (players.find? (fun kv => kv.1 == pid)).map Prod.snd

/-- The loop of `get_sleeper_draft_picks_by_id` building the
name-keyed mapping: picks whose `player_id` is falsy or absent from the
directory are silently skipped. -/
def resolvePicks (picks : List RawPick) (players : List (String × PlayerInfo)) :
    List (String × PickInfo) :=
  picks.foldl
    (fun acc pick =>
      match pick.player_id with
      | none => acc
      | some pid =>
        if pid != "" then
          match lookupPlayer players pid with
          | some pinfo =>
            dictInsert acc (strip (pinfo.first_name ++ " " ++ pinfo.last_name))
              ⟨pick.pick_no, pick.round, pick.picked_by, pinfo.team, pinfo.position⟩
          | none => acc
        else acc)
    []

/-- `get_sleeper_league_info`: `None` unless the request returned 200. -/
def get_sleeper_league_info (resp : HttpResult LeagueInfo) : Option LeagueInfo :=
  match resp with
  | .ok info => some info
  | _ => none

/-- `get_sleeper_draft_info`: `None` unless the request returned 200. -/
def get_sleeper_draft_info (resp : HttpResult DraftInfo) : Option DraftInfo :=
  match resp with
  | .ok info => some info
  | _ => none

/-- `get_sleeper_draft_picks_by_id`: empty mapping on any non-200 response
or exception of either request, otherwise the resolved pick mapping. -/
def get_sleeper_draft_picks_by_id (picksResp : HttpResult (List RawPick))
    (playersResp : HttpResult (List (String × PlayerInfo))) :
    List (String × PickInfo) :=
  match picksResp with
  | .ok picks =>
    match playersResp with
    | .ok players => resolvePicks picks players
    | _ => []
  | _ => []

/-- `get_sleeper_draft_picks` (league path): resolve the league's draft id via
`get_sleeper_league_info`, then delegate; empty mapping when the league lookup
fails or the league has no draft id. -/
def get_sleeper_draft_picks (leagueResp : HttpResult LeagueInfo)
    (picksResp : HttpResult (List RawPick))
    (playersResp : HttpResult (List (String × PlayerInfo))) :
    List (String × PickInfo) :=
  match get_sleeper_league_info leagueResp with
  | none => []
  | some info =>
    if truthy info.draft_id then
      get_sleeper_draft_picks_by_id picksResp playersResp
    else []

/-- The whole of `st.session_state` as initialized at the top of the file. -/
structure SessionState where
  drafted_players : Finset String
  sleeper_picks : List (String × PickInfo)
  sleeper_league_info : Option LeagueInfo
  sleeper_draft_info : Option DraftInfo
  connection_type : Option ConnType
  current_league_id : Option String
  current_draft_id : Option String
  auto_sync_active : Bool
  last_sync_time : ℚ
  sync_in_progress : Bool
  url_params_processed : Bool
deriving DecidableEq

/-- The initial session state (`st.session_state` defaults, lines 16-37). -/
def initialState : SessionState where
  drafted_players := ∅
  sleeper_picks := []
  sleeper_league_info := none
  sleeper_draft_info := none
  connection_type := none
  current_league_id := none
  current_draft_id := none
  auto_sync_active := false
  last_sync_time := 0
  sync_in_progress := false
  url_params_processed := false

/-- The drafted-players update performed after `st.session_state.sleeper_picks`
has already been replaced by the new mapping (perform_sync lines 318-323 and
the two inline manual-sync blocks): the comprehension filters
`st.session_state.drafted_players` against the *new* `sleeper_picks`, then
unions the new keys back in. -/
def reconcileStep (drafted : Finset String) (newPicks : List (String × PickInfo)) :
    Finset String :=
  let manual_picks := drafted.filter (fun p => p ∉ keys newPicks)
  manual_picks ∪ keys newPicks

/-- Modelled from the spec, section 4.2 (for comparison with the code):
`survivingManual = manualPicks - keys(previousRemotePicks)`;
`updatedDraftedView = survivingManual ∪ keys(newRemotePicks)`.  Returns
`(updatedManualPicks, updatedDraftedView)`. -/
def reconcileSpec (manualPicks : Finset String)
    (previousRemotePicks newRemotePicks : List (String × PickInfo)) :
    Finset String × Finset String :=
  let survivingManual := manualPicks \ keys previousRemotePicks
  (survivingManual, survivingManual ∪ keys newRemotePicks)

/-- Outcome of a call to `perform_sync` when a fetch is reached: either the
fetch helpers return a mapping (they catch their own exceptions), or the
fetch raises and is caught by `perform_sync`'s own `except` clause. -/
inductive SyncFetch where
  | ok (picks : List (String × PickInfo))
  | raises (emsg : String)
deriving DecidableEq, Repr

/-- Result of `perform_sync`: the updated session state, the returned
`(success, message)` pair, and whether `st.cache_data.clear()` ran. -/
structure SyncOutcome where
  state : SessionState
  ok : Bool
  msg : String
  cacheCleared : Bool
deriving DecidableEq

/-- The sync message built at lines 328-330. -/
def syncMessage (newCount oldCount : Nat) : String :=
  let diff : Int := (newCount : Int) - (oldCount : Int)
  let indicator :=
    if newCount > oldCount then " (+" ++ toString diff ++ " new)"
    else if newCount < oldCount then " (" ++ toString diff ++ ")"
    else ""
  "Synced " ++ toString newCount ++ " picks" ++ indicator

/-- Shared tail of `perform_sync`'s two fetch branches (lines 316-335):
replace `sleeper_picks`, recompute `drafted_players` from it, stamp
`last_sync_time`, and release the guard in `finally`.  The cache was
cleared just before the fetch, so `cacheCleared` is true even when the
fetch raises. -/
def syncFetchTail (s1 : SessionState) (fetch : SyncFetch) (now : ℚ) : SyncOutcome :=
  match fetch with
  | .raises emsg =>
    { state := { s1 with sync_in_progress := false }
      ok := false
      msg := "Sync error: " ++ emsg
      cacheCleared := true }
  | .ok picks =>
    let old_count := dictLen s1.sleeper_picks
    let s2 := { s1 with sleeper_picks := picks }
    let s3 := { s2 with drafted_players := reconcileStep s2.drafted_players picks }
    let s4 := { s3 with last_sync_time := now }
    { state := { s4 with sync_in_progress := false }
      ok := true
      msg := syncMessage (dictLen picks) old_count
      cacheCleared := true }

/-- `perform_sync(connection_type, league_id, draft_id)` (lines 297-335).
The early-return guard fires before the `try`, so the rejected path changes
nothing; otherwise the guard is set, the matching branch clears the cache and
fetches, and the `finally` clause releases the guard on every exit path. -/
def perform_sync (s : SessionState) (conn : Option ConnType)
    (league_id draft_id : Option String) (fetch : SyncFetch) (now : ℚ) :
    SyncOutcome :=
  if s.sync_in_progress then
    { state := s, ok := false, msg := "Sync already in progress", cacheCleared := false }
  else
    let s1 := { s with sync_in_progress := true }
    if conn = some ConnType.league ∧ truthy league_id = true then
      syncFetchTail s1 fetch now
    else if conn = some ConnType.mock ∧ truthy draft_id = true then
      syncFetchTail s1 fetch now
    else
      { state := { s1 with sync_in_progress := false }
        ok := false
        msg := "Invalid sync parameters"
        cacheCleared := false }

/-- The external responses one fetch+connect cycle can consume.  The fetch
helpers are wrapped in `@st.cache_data`, so repeated calls within one cycle
see the same response. -/
structure FetchEnv where
  leagueResp : HttpResult LeagueInfo
  draftResp : HttpResult DraftInfo
  picksResp : HttpResult (List RawPick)
  playersResp : HttpResult (List (String × PlayerInfo))
deriving DecidableEq, Repr

/-- URL query parameters (`st.query_params`); `none` models an absent key. -/
structure UrlParams where
  league_id : Option String
  draft_id : Option String
deriving DecidableEq, Repr

/-- `process_url_params` (lines 61-119): the once-per-session deep-link
initializer.  Returns the updated state and the number of connect attempts
performed (entries into a spinner block).  The `league_id` parameter takes
priority (`elif`); identifiers are stored *before* the info fetch, so a
failed fetch still leaves them modified; `url_params_processed` is set at
the end regardless of the branch taken. -/
def process_url_params (s : SessionState) (params : UrlParams) (env : FetchEnv) :
    SessionState × Nat :=
  if s.url_params_processed then (s, 0)
  else
    let sn : SessionState × Nat :=
      match params.league_id with
      | some lid =>
        if lid != "" && s.current_league_id != some lid then
          let s1 := { s with current_league_id := some lid, current_draft_id := none }
          match get_sleeper_league_info env.leagueResp with
          | some info =>
            let picks := get_sleeper_draft_picks env.leagueResp env.picksResp env.playersResp
            ({ s1 with
                sleeper_league_info := some info
                sleeper_draft_info := none
                connection_type := some ConnType.league
                sleeper_picks := picks
                drafted_players := s1.drafted_players ∪ keys picks }, 1)
          | none => (s1, 1)
        else (s, 0)
      | none =>
        match params.draft_id with
        | some did =>
          if did != "" && s.current_draft_id != some did then
            let s1 := { s with current_draft_id := some did, current_league_id := none }
            match get_sleeper_draft_info env.draftResp with
            | some info =>
              let picks := get_sleeper_draft_picks_by_id env.picksResp env.playersResp
              ({ s1 with
                  sleeper_draft_info := some info
                  sleeper_league_info := none
                  connection_type := some ConnType.mock
                  sleeper_picks := picks
                  drafted_players := s1.drafted_players ∪ keys picks }, 1)
            | none => (s1, 1)
          else (s, 0)
        | none => (s, 0)
    ({ sn.1 with url_params_processed := true }, sn.2)

/-- The "Connect to League Draft" button handler (lines 373-401).  Returns
the updated state and whether the connection succeeded.  The league id is
stored and the draft id cleared *before* the info fetch. -/
def connectToLeague (s : SessionState) (league_id : String) (env : FetchEnv) :
    SessionState × Bool :=
  if league_id != "" then
    let s1 := { s with current_league_id := some league_id, current_draft_id := none }
    match get_sleeper_league_info env.leagueResp with
    | some info =>
      let picks := get_sleeper_draft_picks env.leagueResp env.picksResp env.playersResp
      ({ s1 with
          sleeper_league_info := some info
          sleeper_draft_info := none
          connection_type := some ConnType.league
          sleeper_picks := picks
          drafted_players := s1.drafted_players ∪ keys picks }, true)
    | none => (s1, false)
  else (s, false)

/-- The "Connect to Mock Draft" button handler (lines 414-442).  Returns
the updated state and whether the connection succeeded.  The draft id is
stored and the league id cleared *before* the info fetch. -/
def connectToMockDraft (s : SessionState) (draft_id : String) (env : FetchEnv) :
    SessionState × Bool :=
  if draft_id != "" then
    let s1 := { s with current_draft_id := some draft_id, current_league_id := none }
    match get_sleeper_draft_info env.draftResp with
    | some info =>
      let picks := get_sleeper_draft_picks_by_id env.picksResp env.playersResp
      ({ s1 with
          sleeper_draft_info := some info
          sleeper_league_info := none
          connection_type := some ConnType.mock
          sleeper_picks := picks
          drafted_players := s1.drafted_players ∪ keys picks }, true)
    | none => (s1, false)
  else (s, false)

/-- The "Sync League Draft" button handler (lines 469-487).  It does not
consult `sync_in_progress` and does not touch `last_sync_time`; it clears
the cache, fetches, replaces `sleeper_picks` and recomputes
`drafted_players` against the new mapping.  The Bool says whether the
sync body ran (a league id is stored). -/
def manualSyncLeague (s : SessionState) (env : FetchEnv) : SessionState × Bool :=
  if truthy s.current_league_id then
    let picks := get_sleeper_draft_picks env.leagueResp env.picksResp env.playersResp
    ({ s with
        sleeper_picks := picks
        drafted_players := reconcileStep s.drafted_players picks }, true)
  else (s, false)

/-- The "Sync Mock Draft" button handler (lines 513-531); same shape as
`manualSyncLeague` with the direct draft-id fetch. -/
def manualSyncMock (s : SessionState) (env : FetchEnv) : SessionState × Bool :=
  if truthy s.current_draft_id then
    let picks := get_sleeper_draft_picks_by_id env.picksResp env.playersResp
    ({ s with
        sleeper_picks := picks
        drafted_players := reconcileStep s.drafted_players picks }, true)
  else (s, false)

/-- Result of one auto-sync tick (lines 553-588). -/
structure TickOutcome where
  state : SessionState
  syncStarted : Bool
  ok : Bool
  msg : String
  cacheCleared : Bool
deriving DecidableEq

/-- One pass through the auto-sync block at the bottom of `main`
(lines 553-588): requires `auto_sync_active` and a stored id; initializes a
zero `last_sync_time` to `now`; calls `perform_sync` only when at least 5.0
seconds have elapsed and no sync is in progress. -/
def autoSyncTick (s : SessionState) (fetch : SyncFetch) (now : ℚ) : TickOutcome :=
  if s.auto_sync_active = true ∧
      (truthy s.current_league_id = true ∨ truthy s.current_draft_id = true) then
    let s0 := if s.last_sync_time = 0 then { s with last_sync_time := now } else s
    if 5 ≤ now - s0.last_sync_time ∧ s0.sync_in_progress = false then
      let out := perform_sync s0 s0.connection_type s0.current_league_id
        s0.current_draft_id fetch now
      { state := out.state, syncStarted := true, ok := out.ok, msg := out.msg
        cacheCleared := out.cacheCleared }
    else
      { state := s0, syncStarted := false, ok := false, msg := "", cacheCleared := false }
  else
    { state := s, syncStarted := false, ok := false, msg := "", cacheCleared := false }

/-- The per-player draft-control button (lines 911-926): a Sleeper-owned
player's button is disabled; a manually drafted player is undrafted
(`discard`); an available player is drafted (`add`). -/
def draftControl (s : SessionState) (player_name : String) : SessionState :=
  if player_name ∈ keys s.sleeper_picks then s
  else if player_name ∈ s.drafted_players then
    { s with drafted_players := s.drafted_players.erase player_name }
  else
    { s with drafted_players := insert player_name s.drafted_players }

/-- The "Clear All Drafted Players" button (lines 948-950): empties
`drafted_players` only; `sleeper_picks` is left as it was. -/
def clearAll (s : SessionState) : SessionState :=
  { s with drafted_players := ∅ }

/-- The invariant named by the spec, in its contentful form: since the code
keeps no separate manual set (manual picks are `drafted_players` minus the
remote keys), `DraftedView = ManualPicks ∪ keys(RemotePicks)` is exactly the
statement that every remote key is in the drafted view. -/
def RemoteKeysDrafted (s : SessionState) : Prop :=
  keys s.sleeper_picks ⊆ s.drafted_players

instance (s : SessionState) : Decidable (RemoteKeysDrafted s) := by
  unfold RemoteKeysDrafted; infer_instance

/-! ### Concrete states and environments used to evaluate the theorems -/

/-- A sample remote pick record. -/
def basePick : PickInfo := ⟨1, 1, "u1", "ATL", "RB"⟩

/-- A sample remote pick record (round 1, overall pick 5). -/
def pickMahomes : PickInfo := ⟨5, 1, "u2", "KC", "QB"⟩

/-- A session connected to mock draft `d1` whose previous sync fetched
exactly one remote pick, "Bijan Robinson" (so the drafted view contains
that name only because the remote feed supplied it). -/
def stateBijan : SessionState where
  drafted_players := {"Bijan Robinson"}
  sleeper_picks := [("Bijan Robinson", basePick)]
  sleeper_league_info := none
  sleeper_draft_info := some ⟨"mock", "drafting", 12⟩
  connection_type := some ConnType.mock
  current_league_id := none
  current_draft_id := some "d1"
  auto_sync_active := false
  last_sync_time := 1
  sync_in_progress := false
  url_params_processed := true

/-- A session connected to mock draft `d1` holding one remote pick,
"Patrick Mahomes". -/
def stateMahomes : SessionState :=
  { stateBijan with
      drafted_players := {"Patrick Mahomes"}
      sleeper_picks := [("Patrick Mahomes", pickMahomes)] }

/-- A league-mode session with a sync currently in flight. -/
def stateBusy : SessionState :=
  { stateMahomes with
      sync_in_progress := true
      connection_type := some ConnType.league
      current_league_id := some "L1"
      current_draft_id := none
      sleeper_league_info := some ⟨"My League", "2025", some "d9"⟩ }

/-- A league-mode session (no sync in flight, no remote picks yet). -/
def stateLeagueConn : SessionState :=
  { initialState with
      connection_type := some ConnType.league
      current_league_id := some "L1"
      sleeper_league_info := some ⟨"My League", "2025", some "d5"⟩ }

/-- A mock-mode session with auto-sync enabled, last synced at `t = 1`. -/
def stateAuto : SessionState :=
  { stateBijan with
      drafted_players := ∅
      sleeper_picks := []
      auto_sync_active := true }

/-- An environment in which every remote request fails with a non-200
response. -/
def envNotFound : FetchEnv := ⟨.httpError, .httpError, .httpError, .httpError⟩

/-- An environment whose league resolves to draft `d9` with a single pick
by player `p1`, who resolves to "Justin Jefferson". -/
def envOnePick : FetchEnv :=
  ⟨.ok ⟨"L", "2025", some "d9"⟩, .httpError,
    .ok [⟨some "p1", 3, 1, "u7"⟩],
    .ok [("p1", ⟨"Justin", "Jefferson", "MIN", "WR"⟩)]⟩

/-! ### Helper lemmas -/

/-- The drafted-players update of a sync cycle only ever adds names:
filtering out the new keys and unioning them back is plain union. -/
theorem reconcileStep_eq_union (drafted : Finset String)
    (newPicks : List (String × PickInfo)) :
    reconcileStep drafted newPicks = drafted ∪ keys newPicks := by
  ext a
  simp only [reconcileStep, Finset.mem_union, Finset.mem_filter]
  tauto

/-- `perform_sync` reports success only from the branch that cleared the
cache and replaced the mapping; there `last_sync_time` is stamped with the
current time. -/
theorem perform_sync_ok (s : SessionState) (conn : Option ConnType)
    (lid did : Option String) (fetch : SyncFetch) (now : ℚ)
    (h : (perform_sync s conn lid did fetch now).ok = true) :
    (perform_sync s conn lid did fetch now).cacheCleared = true
    ∧ (perform_sync s conn lid did fetch now).state.last_sync_time = now
    ∧ ∃ picks, fetch = SyncFetch.ok picks
        ∧ (perform_sync s conn lid did fetch now).state.sleeper_picks = picks
        ∧ (perform_sync s conn lid did fetch now).state.drafted_players
            = s.drafted_players ∪ keys picks := by
  unfold perform_sync at *
  split_ifs at * <;> cases fetch <;>
    simp_all [syncFetchTail, reconcileStep_eq_union]

/-- A sync that passed the guard leaves the guard released regardless of
which branch ran. -/
theorem perform_sync_releases (s : SessionState) (conn : Option ConnType)
    (lid did : Option String) (fetch : SyncFetch) (now : ℚ)
    (h : s.sync_in_progress = false) :
    (perform_sync s conn lid did fetch now).state.sync_in_progress = false := by
  unfold perform_sync
  split_ifs <;> cases fetch <;> simp_all [syncFetchTail]

/-! ### C1 — remote removal -/

/-- C1 counterexample: in `stateBijan`, "Bijan Robinson" is a key of the
previous remote snapshot, is absent from the new (empty) snapshot, and the
drafted view contains it only because the remote feed did; yet after the
sync cycle the player is still present in the updated drafted view,
contradicting the claim that it is absent post-reconcile. -/
theorem C1_counterexample :
    "Bijan Robinson" ∈ keys stateBijan.sleeper_picks
    ∧ "Bijan Robinson" ∉ keys ([] : List (String × PickInfo))
    ∧ (perform_sync stateBijan (some ConnType.mock) none (some "d1")
        (SyncFetch.ok []) 2).ok = true
    ∧ "Bijan Robinson" ∈ (perform_sync stateBijan (some ConnType.mock) none
        (some "d1") (SyncFetch.ok []) 2).state.drafted_players := by
  decide

/-- C1 (amended): a player who was in the previous remote snapshot but is
not in the new one is dropped from the stored remote picks mapping, but
remains in the updated drafted view — the sync cycle's drafted-players
update never removes a name, whether or not the user re-marked the player
manually. -/
theorem C1_remote_removal (s : SessionState) (conn : Option ConnType)
    (lid did : Option String) (picks : List (String × PickInfo)) (now : ℚ)
    (name : String)
    (_hprev : name ∈ keys s.sleeper_picks)
    (hdrafted : name ∈ s.drafted_players)
    (hnew : name ∉ keys picks)
    (hok : (perform_sync s conn lid did (SyncFetch.ok picks) now).ok = true) :
    name ∈ (perform_sync s conn lid did (SyncFetch.ok picks) now).state.drafted_players
    ∧ name ∉ keys (perform_sync s conn lid did
        (SyncFetch.ok picks) now).state.sleeper_picks := by
  obtain ⟨-, -, picks', hp, hsleeper, hdrafted'⟩ :=
    perform_sync_ok s conn lid did (SyncFetch.ok picks) now hok
  obtain rfl : picks = picks' := by injection hp
  refine ⟨?_, ?_⟩
  · rw [hdrafted']
    exact Finset.mem_union_left _ hdrafted
  · rw [hsleeper]
    exact hnew

/-- C1 witness: `C1_remote_removal` evaluated on `stateBijan` with an empty
new snapshot. -/
theorem C1_remote_removal_witness :
    "Bijan Robinson" ∈ (perform_sync stateBijan (some ConnType.mock) none
        (some "d1") (SyncFetch.ok []) 2).state.drafted_players
    ∧ "Bijan Robinson" ∉ keys (perform_sync stateBijan (some ConnType.mock) none
        (some "d1") (SyncFetch.ok []) 2).state.sleeper_picks :=
  C1_remote_removal stateBijan (some ConnType.mock) none (some "d1") [] 2
    "Bijan Robinson" (by decide) (by decide) (by decide) (by decide)

/-! ### C2 — the reconciliation algorithm -/

/-- C2 counterexample: on `stateBijan` with an empty new snapshot, the
drafted view computed by the sync cycle differs from the spec's
`(manualPicks - keys(previousRemotePicks)) ∪ keys(newRemotePicks)`:
the code filters against the *new* snapshot (the mapping is replaced
before the filter runs), not the previous one. -/
theorem C2_counterexample :
    (perform_sync stateBijan (some ConnType.mock) none (some "d1")
        (SyncFetch.ok []) 2).state.drafted_players
    ≠ (reconcileSpec stateBijan.drafted_players stateBijan.sleeper_picks []).2 := by
  decide

/-- C2 (amended): in every sync cycle — `perform_sync` (automatic path) and
both inline manual-sync button handlers — the surviving manual picks are the
current drafted set minus the keys of the *new* remote snapshot (the stored
mapping is replaced before the filter runs), and the updated drafted view is
that set unioned with the new keys, which collapses to the old drafted view
unioned with the new keys. -/
theorem C2_reconcile_algorithm (s : SessionState) (conn : Option ConnType)
    (lid did : Option String) (picks : List (String × PickInfo)) (now : ℚ)
    (env : FetchEnv)
    (hok : (perform_sync s conn lid did (SyncFetch.ok picks) now).ok = true) :
    ((perform_sync s conn lid did (SyncFetch.ok picks) now).state.drafted_players
        = s.drafted_players.filter (fun p => p ∉ keys picks) ∪ keys picks
      ∧ (perform_sync s conn lid did (SyncFetch.ok picks) now).state.drafted_players
        = s.drafted_players ∪ keys picks
      ∧ (perform_sync s conn lid did (SyncFetch.ok picks) now).state.sleeper_picks
        = picks)
    ∧ (truthy s.current_league_id = true →
        (manualSyncLeague s env).1.drafted_players
          = s.drafted_players.filter
              (fun p => p ∉ keys (get_sleeper_draft_picks env.leagueResp
                env.picksResp env.playersResp))
            ∪ keys (get_sleeper_draft_picks env.leagueResp env.picksResp env.playersResp))
    ∧ (truthy s.current_draft_id = true →
        (manualSyncMock s env).1.drafted_players
          = s.drafted_players.filter
              (fun p => p ∉ keys (get_sleeper_draft_picks_by_id env.picksResp
                env.playersResp))
            ∪ keys (get_sleeper_draft_picks_by_id env.picksResp env.playersResp)) := by
  obtain ⟨-, -, picks', hp, hsleeper, hdrafted'⟩ :=
    perform_sync_ok s conn lid did (SyncFetch.ok picks) now hok
  obtain rfl : picks = picks' := by injection hp
  refine ⟨⟨?_, hdrafted', hsleeper⟩, fun h => ?_, fun h => ?_⟩
  · rw [hdrafted', ← reconcileStep_eq_union]
    rfl
  · simp [manualSyncLeague, h, reconcileStep]
  · simp [manualSyncMock, h, reconcileStep]

/-- C2 witness: `C2_reconcile_algorithm` evaluated on `stateBijan` with an
empty new snapshot and the all-failing environment. -/
theorem C2_reconcile_algorithm_witness :
    (perform_sync stateBijan (some ConnType.mock) none (some "d1")
        (SyncFetch.ok []) 2).state.drafted_players
      = stateBijan.drafted_players.filter
          (fun p => p ∉ keys ([] : List (String × PickInfo)))
        ∪ keys ([] : List (String × PickInfo)) :=
  ((C2_reconcile_algorithm stateBijan (some ConnType.mock) none (some "d1") [] 2
    envNotFound (by decide)).1).1

/-! ### C3 — transient fetch failure -/

/-- C3 counterexample: on `stateMahomes` (one stored remote pick), a sync
cycle whose picks request gets a non-200 response receives the empty
mapping from the fetch helper, reports the cycle as a *successful* sync of
zero picks, and replaces the previously stored remote picks mapping with
the empty one instead of retaining it. -/
theorem C3_counterexample :
    get_sleeper_draft_picks_by_id HttpResult.httpError (HttpResult.ok []) = []
    ∧ (perform_sync stateMahomes (some ConnType.mock) none (some "d1")
        (SyncFetch.ok (get_sleeper_draft_picks_by_id HttpResult.httpError
          (HttpResult.ok []))) 2).ok = true
    ∧ (perform_sync stateMahomes (some ConnType.mock) none (some "d1")
        (SyncFetch.ok (get_sleeper_draft_picks_by_id HttpResult.httpError
          (HttpResult.ok []))) 2).state.sleeper_picks
      ≠ stateMahomes.sleeper_picks := by
  decide

/-- C3 (amended): on a transient fetch failure (non-200 response or
exception in the picks request) the fetch helper returns the empty mapping
and the sync cycle treats it as a successful sync of zero picks: the stored
remote picks mapping is *replaced by the empty mapping* (not retained),
`last_sync_time` advances, and the cycle reports success; the drafted view
keeps every previously drafted name. -/
theorem C3_transient_failure (s : SessionState) (conn : Option ConnType)
    (lid did : Option String) (now : ℚ)
    (picksResp : HttpResult (List RawPick))
    (playersResp : HttpResult (List (String × PlayerInfo)))
    (hfail : picksResp = HttpResult.httpError ∨ picksResp = HttpResult.exn)
    (hguard : s.sync_in_progress = false)
    (hvalid : conn = some ConnType.league ∧ truthy lid = true
      ∨ conn = some ConnType.mock ∧ truthy did = true) :
    get_sleeper_draft_picks_by_id picksResp playersResp = []
    ∧ (perform_sync s conn lid did
        (SyncFetch.ok (get_sleeper_draft_picks_by_id picksResp playersResp)) now).ok
      = true
    ∧ (perform_sync s conn lid did
        (SyncFetch.ok (get_sleeper_draft_picks_by_id picksResp playersResp))
        now).state.sleeper_picks = []
    ∧ (perform_sync s conn lid did
        (SyncFetch.ok (get_sleeper_draft_picks_by_id picksResp playersResp))
        now).state.drafted_players = s.drafted_players
    ∧ (perform_sync s conn lid did
        (SyncFetch.ok (get_sleeper_draft_picks_by_id picksResp playersResp))
        now).state.last_sync_time = now := by
  have hempty : get_sleeper_draft_picks_by_id picksResp playersResp = [] := by
    rcases hfail with h | h <;> simp [h, get_sleeper_draft_picks_by_id]
  rw [hempty]
  unfold perform_sync
  rcases hvalid with ⟨h1, h2⟩ | ⟨h1, h2⟩ <;>
    simp [hguard, h1, h2, syncFetchTail, reconcileStep_eq_union, keys]

/-- C3 witness: `C3_transient_failure` evaluated on `stateMahomes` with a
non-200 picks response. -/
theorem C3_transient_failure_witness :
    get_sleeper_draft_picks_by_id HttpResult.httpError (HttpResult.ok []) = []
    ∧ (perform_sync stateMahomes (some ConnType.mock) none (some "d1")
        (SyncFetch.ok (get_sleeper_draft_picks_by_id HttpResult.httpError
          (HttpResult.ok []))) 2).ok = true
    ∧ (perform_sync stateMahomes (some ConnType.mock) none (some "d1")
        (SyncFetch.ok (get_sleeper_draft_picks_by_id HttpResult.httpError
          (HttpResult.ok []))) 2).state.sleeper_picks = []
    ∧ (perform_sync stateMahomes (some ConnType.mock) none (some "d1")
        (SyncFetch.ok (get_sleeper_draft_picks_by_id HttpResult.httpError
          (HttpResult.ok []))) 2).state.drafted_players
      = stateMahomes.drafted_players
    ∧ (perform_sync stateMahomes (some ConnType.mock) none (some "d1")
        (SyncFetch.ok (get_sleeper_draft_picks_by_id HttpResult.httpError
          (HttpResult.ok []))) 2).state.last_sync_time = 2 :=
  C3_transient_failure stateMahomes (some ConnType.mock) none (some "d1") 2
    HttpResult.httpError (HttpResult.ok []) (Or.inl rfl) (by decide)
    (Or.inr ⟨rfl, by decide⟩)

/-! ### C4 — NotFound during connect-to-mock-draft -/

/-- C4 counterexample: starting from a league-bound session, a
connect-to-mock-draft whose draft-info fetch fails does report failure and
leaves the mode unchanged, but it has already overwritten the stored
identifiers: the league id is cleared (and the draft id set) before the
fetch, contradicting "the stored league/draft identifiers are not
modified". -/
theorem C4_counterexample :
    (connectToMockDraft stateLeagueConn "abc123" envNotFound).2 = false
    ∧ (connectToMockDraft stateLeagueConn "abc123" envNotFound).1.current_league_id
      ≠ stateLeagueConn.current_league_id
    ∧ (connectToMockDraft stateLeagueConn "abc123" envNotFound).1.current_draft_id
      ≠ stateLeagueConn.current_draft_id := by
  decide

/-- C4 (amended): if the draft-info fetch returns `NotFound` during
connect-to-mock-draft, the operation reports failure and the mode
(`connection_type`), stored picks and drafted view are unchanged — but the
identifiers were already modified before the fetch: `current_draft_id` is
set to the requested id and `current_league_id` is cleared. -/
theorem C4_mock_connect_notfound (s : SessionState) (draft_id : String)
    (env : FetchEnv)
    (hid : draft_id ≠ "")
    (hnf : get_sleeper_draft_info env.draftResp = none) :
    (connectToMockDraft s draft_id env).2 = false
    ∧ (connectToMockDraft s draft_id env).1.connection_type = s.connection_type
    ∧ (connectToMockDraft s draft_id env).1.sleeper_picks = s.sleeper_picks
    ∧ (connectToMockDraft s draft_id env).1.drafted_players = s.drafted_players
    ∧ (connectToMockDraft s draft_id env).1.current_draft_id = some draft_id
    ∧ (connectToMockDraft s draft_id env).1.current_league_id = none := by
  simp [connectToMockDraft, hid, hnf]

/-- C4 witness: `C4_mock_connect_notfound` evaluated on `stateLeagueConn`
with the all-failing environment. -/
theorem C4_mock_connect_notfound_witness :
    (connectToMockDraft stateLeagueConn "abc123" envNotFound).2 = false
    ∧ (connectToMockDraft stateLeagueConn "abc123" envNotFound).1.connection_type
      = stateLeagueConn.connection_type
    ∧ (connectToMockDraft stateLeagueConn "abc123" envNotFound).1.sleeper_picks
      = stateLeagueConn.sleeper_picks
    ∧ (connectToMockDraft stateLeagueConn "abc123" envNotFound).1.drafted_players
      = stateLeagueConn.drafted_players
    ∧ (connectToMockDraft stateLeagueConn "abc123" envNotFound).1.current_draft_id
      = some "abc123"
    ∧ (connectToMockDraft stateLeagueConn "abc123" envNotFound).1.current_league_id
      = none :=
  C4_mock_connect_notfound stateLeagueConn "abc123" envNotFound (by decide) rfl

/-! ### C5 — the drafted-view invariant -/

/-- The sync guard passed: every branch of `perform_sync` keeps the
remote keys inside the drafted view. -/
theorem RemoteKeysDrafted_perform_sync (s : SessionState) (conn : Option ConnType)
    (lid did : Option String) (fetch : SyncFetch) (now : ℚ)
    (hinv : RemoteKeysDrafted s) :
    RemoteKeysDrafted (perform_sync s conn lid did fetch now).state := by
  unfold RemoteKeysDrafted perform_sync at *
  split_ifs <;> cases fetch <;>
    simp_all [syncFetchTail, reconcileStep_eq_union, Finset.subset_union_right]

/-- Both manual-sync button handlers keep the remote keys inside the
drafted view. -/
theorem RemoteKeysDrafted_manualSync (s : SessionState) (env : FetchEnv)
    (hinv : RemoteKeysDrafted s) :
    RemoteKeysDrafted (manualSyncLeague s env).1
    ∧ RemoteKeysDrafted (manualSyncMock s env).1 := by
  unfold RemoteKeysDrafted manualSyncLeague manualSyncMock at *
  constructor <;> split_ifs <;>
    simp_all [reconcileStep_eq_union, Finset.subset_union_right]

/-- Both connect button handlers keep the remote keys inside the drafted
view. -/
theorem RemoteKeysDrafted_connect (s : SessionState) (league_id draft_id : String)
    (env : FetchEnv) (hinv : RemoteKeysDrafted s) :
    RemoteKeysDrafted (connectToLeague s league_id env).1
    ∧ RemoteKeysDrafted (connectToMockDraft s draft_id env).1 := by
  unfold RemoteKeysDrafted connectToLeague connectToMockDraft at *
  constructor <;> split_ifs <;>
    [skip; exact hinv; skip; exact hinv] <;>
    [cases get_sleeper_league_info env.leagueResp;
      cases get_sleeper_draft_info env.draftResp] <;>
    simp_all [Finset.subset_union_right]

/-- The deep-link initializer keeps the remote keys inside the drafted
view. -/
theorem RemoteKeysDrafted_process_url_params (s : SessionState)
    (params : UrlParams) (env : FetchEnv) (hinv : RemoteKeysDrafted s) :
    RemoteKeysDrafted (process_url_params s params env).1 := by
  unfold RemoteKeysDrafted process_url_params at *
  split_ifs with h
  · exact hinv
  · cases hL : params.league_id with
    | some lid =>
      simp only [hL]
      split_ifs with h2
      · cases hg : get_sleeper_league_info env.leagueResp <;>
          simp_all [Finset.subset_union_right]
      · exact hinv
    | none =>
      cases hD : params.draft_id with
      | some did =>
        simp only [hL, hD]
        split_ifs with h2
        · cases hg : get_sleeper_draft_info env.draftResp <;>
            simp_all [Finset.subset_union_right]
        · exact hinv
      | none => simp only [hL, hD]; exact hinv

/-- The auto-sync tick keeps the remote keys inside the drafted view. -/
theorem RemoteKeysDrafted_autoSyncTick (s : SessionState) (fetch : SyncFetch)
    (now : ℚ) (hinv : RemoteKeysDrafted s) :
    RemoteKeysDrafted (autoSyncTick s fetch now).state := by
  have key : ∀ s' : SessionState, RemoteKeysDrafted s' →
      RemoteKeysDrafted
        (if 5 ≤ now - s'.last_sync_time ∧ s'.sync_in_progress = false then
          let out := perform_sync s' s'.connection_type s'.current_league_id
            s'.current_draft_id fetch now
          ({ state := out.state, syncStarted := true, ok := out.ok, msg := out.msg,
              cacheCleared := out.cacheCleared } : TickOutcome)
        else
          { state := s', syncStarted := false, ok := false, msg := "",
            cacheCleared := false }).state := by
    intro s' h'
    split_ifs
    · exact RemoteKeysDrafted_perform_sync _ _ _ _ fetch now h'
    · exact h'
  unfold autoSyncTick
  split_ifs with h1 h2
  · exact key { s with last_sync_time := now } hinv
  · exact key s hinv
  · exact hinv

/-- C5 counterexample: in `stateMahomes` the invariant
`DraftedView = ManualPicks ∪ keys(RemotePicks)` holds, but the
"Clear All Drafted Players" command — part of the command surface the
claim quantifies over — empties the drafted view while leaving the stored
remote picks mapping intact, so afterwards the remote key
"Patrick Mahomes" is no longer in the drafted view. -/
theorem C5_counterexample :
    RemoteKeysDrafted stateMahomes
    ∧ ¬ RemoteKeysDrafted (clearAll stateMahomes)
    ∧ "Patrick Mahomes" ∈ keys (clearAll stateMahomes).sleeper_picks
    ∧ "Patrick Mahomes" ∉ (clearAll stateMahomes).drafted_players := by
  decide

/-- C5 (amended): the invariant "every key of the stored remote picks
mapping is in the drafted view" (the contentful half of
`DraftedView = ManualPicks ∪ keys(RemotePicks)`, manual picks being the
drafted view minus the remote keys) is preserved by the per-player draft
controls, both connect operations, both manual-sync handlers,
`perform_sync`, the deep-link initializer and the auto-sync tick — but
*not* by the clear-all command, which empties the drafted view while
retaining the remote picks mapping. -/
theorem C5_drafted_view_invariant (s : SessionState)
    (hinv : RemoteKeysDrafted s) :
    (∀ name, RemoteKeysDrafted (draftControl s name))
    ∧ (∀ league_id env, RemoteKeysDrafted (connectToLeague s league_id env).1)
    ∧ (∀ draft_id env, RemoteKeysDrafted (connectToMockDraft s draft_id env).1)
    ∧ (∀ env, RemoteKeysDrafted (manualSyncLeague s env).1)
    ∧ (∀ env, RemoteKeysDrafted (manualSyncMock s env).1)
    ∧ (∀ conn lid did fetch now,
        RemoteKeysDrafted (perform_sync s conn lid did fetch now).state)
    ∧ (∀ params env, RemoteKeysDrafted (process_url_params s params env).1)
    ∧ (∀ fetch now, RemoteKeysDrafted (autoSyncTick s fetch now).state)
    ∧ (clearAll s).drafted_players = ∅
    ∧ (clearAll s).sleeper_picks = s.sleeper_picks := by
  refine ⟨fun name => ?_,
    fun league_id env => (RemoteKeysDrafted_connect s league_id "x" env hinv).1,
    fun draft_id env => (RemoteKeysDrafted_connect s "x" draft_id env hinv).2,
    fun env => (RemoteKeysDrafted_manualSync s env hinv).1,
    fun env => (RemoteKeysDrafted_manualSync s env hinv).2,
    fun conn lid did fetch now =>
      RemoteKeysDrafted_perform_sync s conn lid did fetch now hinv,
    fun params env => RemoteKeysDrafted_process_url_params s params env hinv,
    fun fetch now => RemoteKeysDrafted_autoSyncTick s fetch now hinv,
    rfl, rfl⟩
  unfold RemoteKeysDrafted draftControl at *
  split_ifs with h1 h2
  · exact hinv
  · intro a ha
    exact Finset.mem_erase.mpr ⟨fun he => h1 (he ▸ ha), hinv ha⟩
  · intro a ha
    exact Finset.mem_insert_of_mem (hinv ha)

/-- C5 witness: `C5_drafted_view_invariant` evaluated on `stateMahomes`:
the invariant survives a draft-control press and a `perform_sync`, and the
clear-all command empties the drafted view. -/
theorem C5_drafted_view_invariant_witness :
    RemoteKeysDrafted (draftControl stateMahomes "Justin Jefferson")
    ∧ RemoteKeysDrafted (perform_sync stateMahomes (some ConnType.mock) none
        (some "d1") (SyncFetch.ok []) 3).state
    ∧ (clearAll stateMahomes).drafted_players = ∅ :=
  ⟨(C5_drafted_view_invariant stateMahomes (by decide)).1 "Justin Jefferson",
    (C5_drafted_view_invariant stateMahomes (by decide)).2.2.2.2.2.1
      (some ConnType.mock) none (some "d1") (SyncFetch.ok []) 3,
    (C5_drafted_view_invariant stateMahomes (by decide)).2.2.2.2.2.2.2.2.1⟩

/-! ### C6 — single-flight guard -/

/-- C6 counterexample: with a sync in progress (`stateBusy`), pressing the
manual "Sync League Draft" button is *not* rejected: the handler never
consults `sync_in_progress`, runs the fetch-and-merge, and alters the
stored picks state, contradicting the claim that any sync request is
rejected while `sync_in_progress` is true. -/
theorem C6_counterexample :
    stateBusy.sync_in_progress = true
    ∧ (manualSyncLeague stateBusy envOnePick).2 = true
    ∧ (manualSyncLeague stateBusy envOnePick).1.sleeper_picks
      ≠ stateBusy.sleeper_picks := by
  decide

/-- C6 (amended): while `sync_in_progress` is true, a `perform_sync`
request (the automatic path) is rejected with the "Sync already in
progress" signal, is not queued, and leaves the entire state — in
particular `last_sync_time` and the stored picks — unchanged; the manual
"sync now" buttons, however, bypass the guard entirely: with a bound
league id the handler runs regardless of `sync_in_progress` (though it
never updates `last_sync_time`). -/
theorem C6_single_flight (s : SessionState) (conn : Option ConnType)
    (lid did : Option String) (fetch : SyncFetch) (now : ℚ) (env : FetchEnv)
    (h : s.sync_in_progress = true) :
    perform_sync s conn lid did fetch now
      = { state := s, ok := false, msg := "Sync already in progress",
          cacheCleared := false }
    ∧ (truthy s.current_league_id = true → (manualSyncLeague s env).2 = true)
    ∧ (manualSyncLeague s env).1.last_sync_time = s.last_sync_time := by
  refine ⟨by simp [perform_sync, h], fun hl => by simp [manualSyncLeague, hl], ?_⟩
  unfold manualSyncLeague
  split_ifs <;> rfl

/-- C6 witness: `C6_single_flight` evaluated on `stateBusy`. -/
theorem C6_single_flight_witness :
    perform_sync stateBusy (some ConnType.league) (some "L1") none
        (SyncFetch.ok []) 9
      = { state := stateBusy, ok := false, msg := "Sync already in progress",
          cacheCleared := false }
    ∧ (manualSyncLeague stateBusy envOnePick).2 = true :=
  ⟨(C6_single_flight stateBusy (some ConnType.league) (some "L1") none
      (SyncFetch.ok []) 9 envOnePick (by decide)).1,
    (C6_single_flight stateBusy (some ConnType.league) (some "L1") none
      (SyncFetch.ok []) 9 envOnePick (by decide)).2.1 (by decide)⟩

/-! ### C7 — deep-link initializer runs once -/

/-- Once the guard flag is set, the deep-link initializer is a no-op. -/
theorem process_url_params_of_processed (s : SessionState) (params : UrlParams)
    (env : FetchEnv) (h : s.url_params_processed = true) :
    process_url_params s params env = (s, 0) := by
  simp [process_url_params, h]

/-- C7: the deep-link initializer runs at most once per session: the guard
flag is set unconditionally after the first invocation whether or not the
connection succeeded, any later invocation with the same parameters is a
no-op performing zero connect attempts, and when the parameters do carry a
fresh league id the first invocation performs exactly one connect attempt
— so two consecutive invocations yield exactly one connect call. -/
theorem C7_deep_link_once (s : SessionState) (params : UrlParams)
    (env : FetchEnv) :
    (process_url_params s params env).1.url_params_processed = true
    ∧ process_url_params (process_url_params s params env).1 params env
        = ((process_url_params s params env).1, 0)
    ∧ ∀ lid, s.url_params_processed = false → params.league_id = some lid →
        lid ≠ "" → s.current_league_id ≠ some lid →
        (process_url_params s params env).2 = 1 := by
  have hflag : (process_url_params s params env).1.url_params_processed = true := by
    unfold process_url_params
    split_ifs with h
    · exact h
    · rfl
  refine ⟨hflag, process_url_params_of_processed _ params env hflag, ?_⟩
  intro lid h hL hne hcur
  cases hg : get_sleeper_league_info env.leagueResp <;>
    simp [process_url_params, h, hL, hg, hne, hcur]

/-- C7 witness: `C7_deep_link_once` evaluated on the initial session state
with deep-link parameter `league_id=L1` and an all-failing environment:
the first invocation performs one connect attempt and the second is a
no-op. -/
theorem C7_deep_link_once_witness :
    (process_url_params initialState ⟨some "L1", none⟩ envNotFound).2 = 1
    ∧ process_url_params
        (process_url_params initialState ⟨some "L1", none⟩ envNotFound).1
        ⟨some "L1", none⟩ envNotFound
      = ((process_url_params initialState ⟨some "L1", none⟩ envNotFound).1, 0) :=
  ⟨(C7_deep_link_once initialState ⟨some "L1", none⟩ envNotFound).2.2 "L1"
      (by decide) rfl (by decide) (by decide),
    (C7_deep_link_once initialState ⟨some "L1", none⟩ envNotFound).2.1⟩

/-! ### C8 — auto-sync scheduling -/

/-- C8: an automatic sync never starts on a tick unless auto-sync is
enabled, a league or draft identifier is stored, at least 5.0 seconds have
elapsed since `last_sync_time`, and no sync is in progress; when the tick's
sync actually runs (reports success) the cache was invalidated; and a tick
0.3 seconds after a completed sync triggers no second sync. -/
theorem C8_auto_sync_scheduler (s : SessionState) (f : SyncFetch) (now : ℚ) :
    ((autoSyncTick s f now).syncStarted = true →
      s.auto_sync_active = true
      ∧ (truthy s.current_league_id = true ∨ truthy s.current_draft_id = true)
      ∧ 5 ≤ now - s.last_sync_time
      ∧ s.sync_in_progress = false)
    ∧ ((autoSyncTick s f now).syncStarted = true →
        (autoSyncTick s f now).ok = true →
        (autoSyncTick s f now).cacheCleared = true)
    ∧ ∀ (conn : Option ConnType) (lid did : Option String)
        (picks : List (String × PickInfo)) (t : ℚ) (g : SyncFetch),
        (perform_sync s conn lid did (SyncFetch.ok picks) t).ok = true →
        (autoSyncTick (perform_sync s conn lid did (SyncFetch.ok picks) t).state g
          (t + 3/10)).syncStarted = false := by
  refine ⟨?_, ?_, ?_⟩
  · intro hs
    simp only [autoSyncTick] at hs
    split_ifs at hs with h1 h2 h3 h4
    · exfalso
      have h0 : (5:ℚ) ≤ now - now := h3.1
      rw [sub_self] at h0
      norm_num at h0
    · exact ⟨h1.1, h1.2, h4.1, h4.2⟩
  · intro hs hok
    simp only [autoSyncTick] at hs hok ⊢
    split_ifs at hs hok ⊢ with h1 h2 h3 h4
    · exact (perform_sync_ok _ _ _ _ f now hok).1
    · exact (perform_sync_ok _ _ _ _ f now hok).1
  · intro conn lid did picks t g hok
    have hlast := (perform_sync_ok s conn lid did (SyncFetch.ok picks) t hok).2.1
    simp only [autoSyncTick]
    split_ifs with h1 h2 h3 h4
    · exfalso
      have h0 : (5:ℚ) ≤ (t + 3/10) - (t + 3/10) := h3.1
      rw [sub_self] at h0
      norm_num at h0
    · rfl
    · exfalso
      have h0 : (5:ℚ) ≤ (t + 3/10) -
          (perform_sync s conn lid did (SyncFetch.ok picks) t).state.last_sync_time :=
        h4.1
      rw [hlast, add_sub_cancel_left] at h0
      norm_num at h0
    · rfl
    · rfl

/-- C8 witness: `C8_auto_sync_scheduler` evaluated on `stateAuto` (auto-sync
on, last synced at `t = 1`): a tick at `t = 7` starts a sync, so the four
conditions hold there; and after a sync completed at `t = 7`, a tick at
`t = 7.3` starts no second sync. -/
theorem C8_auto_sync_scheduler_witness :
    (stateAuto.auto_sync_active = true
      ∧ (truthy stateAuto.current_league_id = true
        ∨ truthy stateAuto.current_draft_id = true)
      ∧ 5 ≤ (7:ℚ) - stateAuto.last_sync_time
      ∧ stateAuto.sync_in_progress = false)
    ∧ (autoSyncTick (perform_sync stateAuto (some ConnType.mock) none (some "d1")
        (SyncFetch.ok []) 7).state (SyncFetch.ok []) (7 + 3/10)).syncStarted
      = false :=
  ⟨(C8_auto_sync_scheduler stateAuto (SyncFetch.ok []) 7).1
      (by norm_num [autoSyncTick, stateAuto, stateBijan, truthy]; decide),
    (C8_auto_sync_scheduler stateAuto (SyncFetch.ok []) 7).2.2
      (some ConnType.mock) none (some "d1") [] 7 (SyncFetch.ok []) (by decide)⟩

/-! ### C9 — idempotence of the merge -/

/-- C9: the reconcile/merge step is idempotent: applying the sync cycle's
drafted-players update twice with the same new remote snapshot yields the
same drafted view both times, and likewise two whole `perform_sync` cycles
with the same fetched mapping produce identical drafted views. -/
theorem C9_reconcile_idempotent :
    (∀ (drafted : Finset String) (newPicks : List (String × PickInfo)),
      reconcileStep (reconcileStep drafted newPicks) newPicks
        = reconcileStep drafted newPicks)
    ∧ ∀ (s : SessionState) (conn : Option ConnType) (lid did : Option String)
        (picks : List (String × PickInfo)) (now1 now2 : ℚ),
        (perform_sync (perform_sync s conn lid did (SyncFetch.ok picks) now1).state
            conn lid did (SyncFetch.ok picks) now2).state.drafted_players
          = (perform_sync s conn lid did
              (SyncFetch.ok picks) now1).state.drafted_players := by
  have hstep : ∀ (drafted : Finset String) (newPicks : List (String × PickInfo)),
      reconcileStep (reconcileStep drafted newPicks) newPicks
        = reconcileStep drafted newPicks := by
    intro drafted newPicks
    simp [reconcileStep_eq_union, Finset.union_assoc, Finset.union_self]
  refine ⟨hstep, fun s conn lid did picks now1 now2 => ?_⟩
  unfold perform_sync
  split_ifs <;> simp_all [syncFetchTail, hstep]

/-! ### C10 — the re-entrancy guard is always released -/

/-- C10: every invocation of `perform_sync` that passes the re-entrancy
guard (the stored `sync_in_progress` is false) returns with
`sync_in_progress` false again, on every exit path — fetch success,
fetch exception, and invalid parameters — because the guard is released
in the `finally` block. -/
theorem C10_guard_always_released (s : SessionState) (conn : Option ConnType)
    (lid did : Option String) (fetch : SyncFetch) (now : ℚ)
    (h : s.sync_in_progress = false) :
    (perform_sync s conn lid did fetch now).state.sync_in_progress = false :=
  perform_sync_releases s conn lid did fetch now h

/-- C10 witness: the guard is released after a sync on `stateBijan` whose
fetch raises an exception. -/
theorem C10_guard_always_released_witness :
    (perform_sync stateBijan (some ConnType.mock) none (some "d1")
        (SyncFetch.raises "boom") 2).state.sync_in_progress = false :=
  C10_guard_always_released stateBijan (some ConnType.mock) none (some "d1")
    (SyncFetch.raises "boom") 2 (by decide)

end DraftApp
